import Mathlib

/-!
Shallow embedding of the Unikhorn Coat Calculator SDK (src/index.ts).

The SDK wraps a remote HTTP API: it builds form-encoded request bodies,
sends them through an axios client whose response interceptor runs a
shared error mapper, and re-maps failures in each method's catch block.
We model:

* JSON values (`Json`) with JavaScript-faithful truthiness, string
  coercion (`String(v)` as used by the `Error` constructor) and
  `JSON.stringify` serialization;
* the exception values that can flow through the SDK (`JsThrown`):
  axios transport errors, already-mapped `UnikhornAPIError`s and other
  local exceptions such as a TypeError while building a body;
* the error mapper `handleError` (src/index.ts lines 293-307);
* the request-body builders and the public methods, parametrised by an
  abstract `Transport` (the network): a method call is a pure function
  of the transport's outcome, and a rejected promise is an `Except.error`
  carrying the thrown value.

Form bodies are kept as ordered key/value pair lists: `URLSearchParams`
is a sequence of `append` calls and `toString` serializes that sequence,
so the pair list is the information content of the outgoing body.
-/

namespace Unikhorn

/-- A JSON value, as produced by `JSON.parse` of a response body or passed
by the caller as an open `others` / `kit_linkage` mapping. Objects keep
their fields as an ordered association list. -/
inductive Json where
  | str (s : String)
  | num (n : Int)
  | bool (b : Bool)
  | null
  | arr (elems : List Json)
  | obj (fields : List (String × Json))

/-- Property lookup on a parsed JSON object. `JSON.parse` keeps the last
of duplicate keys, so lookup returns the last binding. -/
def lookupLast : List (String × Json) → String → Option Json
  | [], _ => none
  | (k, v) :: fs, key =>
    match lookupLast fs key with
    | some r => some r
    | none => if k = key then some v else none

/-- Optional property access `x?.k` on a JSON value: a field of an object, `undefined` (none) on
anything else. -/
def Json.lookupField : Json → String → Option Json
  | .obj fs, key => lookupLast fs key
  | _, _ => none

/-- JavaScript truthiness of a JSON value: empty string, zero and null
are falsy; every object and array is truthy. -/
def Json.jsTruthy : Json → Bool
  | .str s => s ≠ ""
  | .num n => n ≠ 0
  | .bool b => b
  | .null => false
  | .arr _ => true
  | .obj _ => true

mutual

/-- Coercion `String(v)` for a JSON value, as applied by the `Error` constructor
to a non-string message. Arrays join with commas (null elements become
the empty string); objects print the generic object tag. -/
def Json.jsToString : Json → String
  | .str s => s
  | .num n => toString n
  | .bool b => if b then "true" else "false"
  | .null => "null"
  | .arr xs => joinElems xs
  | .obj _ => "[object Object]"

/-- Array.prototype.join with separator comma; a null element contributes
an empty string. -/
def joinElems : List Json → String
  | [] => ""
  | [Json.null] => ""
  | [x] => Json.jsToString x
  | Json.null :: xs => "," ++ joinElems xs
  | x :: xs => Json.jsToString x ++ "," ++ joinElems xs

end

/-- JSON string escaping (quote and backslash; enough for the SDK's
payloads, which it never re-parses). -/
def escapeJsonChar (c : Char) : String :=
  if c = '\\' then "\\\\" else if c = '\"' then "\\\"" else String.singleton c

/-- Escape every character of a string for inclusion in a JSON literal. -/
def escapeJsonString (s : String) : String :=
  String.join (s.toList.map escapeJsonChar)

mutual

/-- Serialization `JSON.stringify` of a JSON value. -/
def Json.stringify : Json → String
  | .str s => "\"" ++ escapeJsonString s ++ "\""
  | .num n => toString n
  | .bool b => if b then "true" else "false"
  | .null => "null"
  | .arr xs => "[" ++ stringifyElems xs ++ "]"
  | .obj fs => "\x7b" ++ stringifyFields fs ++ "\x7d"

/-- Comma-separated serialization of array elements. -/
def stringifyElems : List Json → String
  | [] => ""
  | [x] => Json.stringify x
  | x :: xs => Json.stringify x ++ "," ++ stringifyElems xs

/-- Comma-separated serialization of object fields. -/
def stringifyFields : List (String × Json) → String
  | [] => ""
  | [(k, v)] => "\"" ++ escapeJsonString k ++ "\":" ++ Json.stringify v
  | (k, v) :: fs =>
    "\"" ++ escapeJsonString k ++ "\":" ++ Json.stringify v ++ "," ++ stringifyFields fs

end

/-! ## Error model (src/index.ts lines 71-80 and 293-307) -/

/-- The `UnikhornAPIError` class: message, optional numeric status code,
optional raw response body. -/
structure UnikhornAPIError where
  message : String
  statusCode : Option Nat
  response : Option Json

/-- The data an `AxiosError` carries that `handleError` inspects:
`error.response` (HTTP status and parsed body) when a response arrived,
and whether `error.request` was set (a request went out). -/
structure AxiosErrorData where
  response : Option (Nat × Json)
  requestSent : Bool

/-- A thrown JavaScript value as it can reach `handleError`: a raw axios
transport error, an already-constructed `UnikhornAPIError` (for which
`axios.isAxiosError` is false), or any other local exception such as a
TypeError raised while building a request body. -/
inductive JsThrown where
  | axios (e : AxiosErrorData)
  | api (e : UnikhornAPIError)
  | exc (msg : String)

/-- The expression `(axiosError.response.data as any)?.message || 'API request failed'`:
the body's `message` field coerced to a string when present and truthy,
else the generic fallback. -/
def responseMessage (data : Json) : String :=
  match data.lookupField "message" with
  | some v => if v.jsTruthy then v.jsToString else "API request failed"
  | none => "API request failed"

/-- The error mapper `handleError` (src/index.ts lines 293-307). It always
throws a `UnikhornAPIError`; we model the thrown value as the result.
The branches follow the source: an axios error with a response keeps the
body's message, status and raw body; an axios error with a request but no
response becomes status 0; everything else (including a value that is not
an axios error, such as a `UnikhornAPIError` produced by a previous run
of the mapper) becomes the generic unexpected error. -/
def handleError : JsThrown → UnikhornAPIError
  | .axios e =>
    match e.response with
    | some (status, data) => ⟨responseMessage data, some status, some data⟩
    | none =>
      if e.requestSent then ⟨"No response from server", some 0, none⟩
      else ⟨"An unexpected error occurred", none, none⟩
  | .api _ => ⟨"An unexpected error occurred", none, none⟩
  | .exc _ => ⟨"An unexpected error occurred", none, none⟩

/-! ## Data model (src/index.ts lines 13-69) -/

/-- The `BaseGenes` record: the two allele pairs. The TypeScript type declares
two-element tuples; the runtime validator re-checks the length, so the
embedding uses lists of arbitrary length. -/
structure BaseGenes where
  extension : List String
  agouti : List String

/-- The `HorseGenes` record. `base` is required by the type but the validator and the
body builder must face callers that omit it, so it is optional here;
`others` is an open JSON mapping; `lang` is an optional language code. -/
structure HorseGenes where
  base : Option BaseGenes
  others : Option Json
  lang : Option String

/-- The `OffspringGenes` record: both parents, optional linkage hints (kept as an
opaque JSON value, the SDK only stringifies it), the tri-state `has_IDK`
flag (absent / false / true) and an optional language. -/
structure OffspringGenes where
  mother : HorseGenes
  father : HorseGenes
  kit_linkage : Option Json
  has_IDK : Option Bool
  lang : Option String

/-- The JSON object `JSON.stringify` sees for a `HorseGenes` value:
fields in declaration order, absent optional fields omitted (stringify
skips `undefined` properties). -/
def HorseGenes.toJson (g : HorseGenes) : Json :=
  .obj
    ((match g.base with
      | some b =>
        [("base", .obj [("extension", .arr (b.extension.map .str)),
                        ("agouti", .arr (b.agouti.map .str))])]
      | none => [])
     ++ (match g.others with | some o => [("others", o)] | none => [])
     ++ (match g.lang with | some l => [("lang", .str l)] | none => []))

/-- JavaScript `a || b` on an optional string: the left value when present and
non-empty (truthy), else the default. -/
def jsOr (o : Option String) (d : String) : String :=
  match o with
  | some s => if s = "" then d else s
  | none => d

/-- JavaScript `a || b` on an optional number: the left value when present and
non-zero, else the default. -/
def jsOrNat (o : Option Nat) (d : Nat) : Nat :=
  match o with
  | some n => if n = 0 then d else n
  | none => d

/-! ## Client construction (src/index.ts lines 64-69 and 93-117) -/

/-- The `UnikhornConfig` record: only `apiKey` is declared required, but a JavaScript
caller can omit it, which the constructor guards against, so every field
is optional here. -/
structure UnikhornConfig where
  apiKey : Option String
  baseURL : Option String
  language : Option String
  timeout : Option Nat

/-- The state a successfully constructed client holds: the axios instance
settings and the mutable language field. -/
structure ClientState where
  baseURL : String
  timeout : Nat
  language : String
  authorizationHeader : String
  apiKeyHeader : String

/-- The constructor (src/index.ts lines 93-117). `!config.apiKey` rejects
an absent or empty key by throwing a plain `Error('API key is required')`
(modelled as the `Except.error` message) synchronously, before the axios
instance exists; otherwise defaults are applied with `||`. -/
def mkCalculator (config : UnikhornConfig) : Except String ClientState :=
  match config.apiKey with
  | none => .error "API key is required"
  | some key =>
    if key = "" then .error "API key is required"
    else
      .ok
        { baseURL := jsOr config.baseURL "https://api.unikhorn.io/v1"
          timeout := jsOrNat config.timeout 30000
          language := jsOr config.language "en"
          authorizationHeader := "Bearer " ++ key
          apiKeyHeader := key }

/-! ## Transport and the public methods (src/index.ts lines 124-279) -/

/-- The network, abstracted: the outcome of an axios `post` (path and the
appended form pairs) or `get` (path). A failure is the `AxiosErrorData`
the rejected `AxiosError` carries. -/
structure Transport where
  post : String → List (String × String) → Except AxiosErrorData Json
  get : String → Except AxiosErrorData Json

/-- One request through the client's response interceptor
(src/index.ts lines 113-116): a success passes through, and on failure
the interceptor runs `handleError` on the axios error, so the promise
the method awaits rejects with the resulting `UnikhornAPIError` — which
is not an axios error. -/
def clientRequest (outcome : Except AxiosErrorData Json) : Except JsThrown Json :=
  match outcome with
  | .ok data => .ok data
  | .error e => .error (.api (handleError (.axios e)))

/-- The `formData.append(key, pair[i])` string coercion: a present element is
appended as is; indexing past the end of the array yields `undefined`,
which `URLSearchParams.append` stringifies to "undefined". -/
def appendIndex (l : List String) (i : Nat) : String :=
  l.getD i "undefined"

/-- The body `calculateSingleCoat` builds (src/index.ts lines 126-135):
the two extension alleles, the two agouti alleles, the effective
language, and the JSON-serialized `others` mapping only when present.
Reading `genes.base.extension` with `base` undefined throws a TypeError,
modelled as the thrown local exception. -/
def buildSingleCoatBody (clientLang : String) (genes : HorseGenes) :
    Except JsThrown (List (String × String)) :=
  match genes.base with
  | none => .error (.exc "TypeError: cannot read properties of undefined")
  | some b =>
    .ok
      ([("base[extension][]", appendIndex b.extension 0),
        ("base[extension][]", appendIndex b.extension 1),
        ("base[agouti][]", appendIndex b.agouti 0),
        ("base[agouti][]", appendIndex b.agouti 1),
        ("lang", jsOr genes.lang clientLang)]
       ++ (match genes.others with
           | some o => [("others", Json.stringify o)]
           | none => []))

/-- Method `calculateSingleCoat` (src/index.ts lines 124-146). The try/catch
spans body construction and the awaited request; whatever is caught is
passed through `handleError` again and the result thrown. -/
def calculateSingleCoat (t : Transport) (clientLang : String) (genes : HorseGenes) :
    Except JsThrown Json :=
  match buildSingleCoatBody clientLang genes with
  | .error thrown => .error (.api (handleError thrown))
  | .ok body =>
    match clientRequest (t.post "/coats/result" body) with
    | .ok data => .ok data
    | .error thrown => .error (.api (handleError thrown))

/-- The body `calculateOffspring` builds (src/index.ts lines 155-174):
mother and father each as one JSON-encoded string field, the effective
language, `kit_linkage` as a JSON string only when provided, and
`has_IDK` as `toString` of the boolean only when it is not undefined. -/
def buildOffspringBody (clientLang : String) (off : OffspringGenes) :
    List (String × String) :=
  [("mother", Json.stringify off.mother.toJson),
   ("father", Json.stringify off.father.toJson),
   ("lang", jsOr off.lang clientLang)]
  ++ (match off.kit_linkage with
      | some k => [("kit_linkage", Json.stringify k)]
      | none => [])
  ++ (match off.has_IDK with
      | some b => [("has_IDK", if b then "true" else "false")]
      | none => [])

/-- Method `calculateOffspring` (src/index.ts lines 153-185): same try/catch and
re-mapping shape as the single-coat call. -/
def calculateOffspring (t : Transport) (clientLang : String) (off : OffspringGenes) :
    Except JsThrown Json :=
  match clientRequest (t.post "/coats/generateChild" (buildOffspringBody clientLang off)) with
  | .ok data => .ok data
  | .error thrown => .error (.api (handleError thrown))

/-- Method `getApiInfo` (src/index.ts lines 265-279): a GET through the client,
failures re-mapped in the catch. -/
def getApiInfo (t : Transport) : Except JsThrown Json :=
  match clientRequest (t.get "/coats/api-info") with
  | .ok data => .ok data
  | .error thrown => .error (.api (handleError thrown))

/-- Method `batchCalculate` (src/index.ts lines 192-207), instrumented with the
list of item ids for which the single-coat call was actually started, in
invocation order. The loop awaits each call in turn; a failure is caught,
passed through `handleError` and thrown, which aborts the loop and
discards the `results` array built so far. -/
def batchCalculateRun (t : Transport) (clientLang : String) :
    List (String × HorseGenes) → Except JsThrown (List (String × Json)) × List String
  | [] => (.ok [], [])
  | (id, genes) :: rest =>
    match calculateSingleCoat t clientLang genes with
    | .ok result =>
      match batchCalculateRun t clientLang rest with
      | (.ok results, invoked) => (.ok ((id, result) :: results), id :: invoked)
      | (.error e, invoked) => (.error e, id :: invoked)
    | .error thrown => (.error (.api (handleError thrown)), [id])

/-- The caller-visible outcome of `batchCalculate`: the ordered `{id, result}`
list, or the thrown error. -/
def batchCalculate (t : Transport) (clientLang : String)
    (horses : List (String × HorseGenes)) : Except JsThrown (List (String × Json)) :=
  (batchCalculateRun t clientLang horses).1

/-- Method `getAllCoatColors` (src/index.ts lines 214-216): throws a fixed
`UnikhornAPIError` without touching the client. -/
def getAllCoatColors (_t : Transport) : Except JsThrown Json :=
  .error (.api ⟨"This endpoint is not available in the current API version", none, none⟩)

/-- Method `getUsageStats` (src/index.ts lines 253-259): same fixed failure. -/
def getUsageStats (_t : Transport) : Except JsThrown Json :=
  .error (.api ⟨"This endpoint is not available in the current API version", none, none⟩)

/-- The `{valid, errors?}` result of `validateGenes`. -/
structure ValidationResult where
  valid : Bool
  errors : Option (List String)
deriving Repr, DecidableEq

/-- Method `validateGenes` (src/index.ts lines 224-246): a pure local check that
touches no transport. A missing `base` short-circuits the allele checks;
otherwise each pair whose length differs from 2 contributes its own
message, in source order. `errors` is undefined when the list is empty. -/
def validateGenes (genes : HorseGenes) : ValidationResult :=
  let errors :=
    match genes.base with
    | none => ["Base genes are required"]
    | some b =>
      (if b.extension.length ≠ 2 then ["Extension gene must have exactly 2 alleles"] else [])
      ++ (if b.agouti.length ≠ 2 then ["Agouti gene must have exactly 2 alleles"] else [])
  { valid := errors.isEmpty
    errors := if errors.isEmpty then none else some errors }

/-! ## Concrete fixtures used to evaluate the model -/

/-- A well-formed genotype: heterozygous extension and agouti. -/
def genesEe : HorseGenes := ⟨some ⟨["E", "e"], ["A", "a"]⟩, none, none⟩

/-- A second well-formed genotype, distinguished by its first allele. -/
def genesXx : HorseGenes := ⟨some ⟨["X", "x"], ["A", "a"]⟩, none, none⟩

/-- An offspring request crossing the fixture genotype with itself. -/
def offEe : OffspringGenes := ⟨genesEe, genesEe, none, none, none⟩

/-- The simulated 422 response body. -/
def bodyInvalidAllele : Json := Json.obj [("message", Json.str "invalid allele")]

/-- A transport on which every request fails with HTTP 422 and the
`invalid allele` body. -/
def t422 : Transport :=
  { post := fun _ _ => .error ⟨some (422, bodyInvalidAllele), true⟩
    get := fun _ => .error ⟨some (422, bodyInvalidAllele), true⟩ }

/-- A transport on which every request goes out but no response arrives
(connection timeout). -/
def tTimeout : Transport :=
  { post := fun _ _ => .error ⟨none, true⟩
    get := fun _ => .error ⟨none, true⟩ }

/-- A transport that answers a single-coat body whose first allele is
"E" and fails every other request with HTTP 500. -/
def tBatch : Transport :=
  { post := fun _ body =>
      match body with
      | (_, v) :: _ =>
        if v = "E" then .ok (Json.str "ok") else .error ⟨some (500, Json.null), true⟩
      | [] => .error ⟨none, false⟩
    get := fun _ => .error ⟨none, false⟩ }

/-! ## Theorems -/

/-- Claim C10: when `base` is absent, `validateGenes` returns invalid with
exactly the one-element error list "Base genes are required"; the allele
checks are skipped, so no pair error accompanies the missing-base error. -/
theorem validateGenes_missing_base (genes : HorseGenes) (h : genes.base = none) :
    validateGenes genes = ⟨false, some ["Base genes are required"]⟩ := by
  simp [validateGenes, h]

/-- Witness for C10 at a concrete input with no base. -/
theorem validateGenes_missing_base_witness :
    validateGenes ⟨none, none, none⟩ = ⟨false, some ["Base genes are required"]⟩ :=
  validateGenes_missing_base ⟨none, none, none⟩ rfl

/-- Claim C7: `validateGenes` is a pure local check (it takes no
transport). With `base` present and both pairs of length two it returns
valid with `errors` undefined; a bad extension pair and a bad agouti
pair are each flagged with their own message, independently and without
short-circuiting, so both messages appear together when both pairs are
bad. -/
theorem validateGenes_shape_checks (genes : HorseGenes) (b : BaseGenes)
    (h : genes.base = some b) :
    (b.extension.length = 2 → b.agouti.length = 2 →
      validateGenes genes = ⟨true, none⟩) ∧
    (b.extension.length ≠ 2 → b.agouti.length = 2 →
      validateGenes genes = ⟨false, some ["Extension gene must have exactly 2 alleles"]⟩) ∧
    (b.extension.length = 2 → b.agouti.length ≠ 2 →
      validateGenes genes = ⟨false, some ["Agouti gene must have exactly 2 alleles"]⟩) ∧
    (b.extension.length ≠ 2 → b.agouti.length ≠ 2 →
      validateGenes genes =
        ⟨false, some ["Extension gene must have exactly 2 alleles",
                      "Agouti gene must have exactly 2 alleles"]⟩) := by
  refine ⟨?_, ?_, ?_, ?_⟩ <;> intro h1 h2 <;> simp [validateGenes, h, h1, h2]

/-- Witness for C7: a valid input, and an input where both pairs are bad
and both messages are reported simultaneously. -/
theorem validateGenes_shape_checks_witness :
    validateGenes ⟨some ⟨["E", "e"], ["A", "a"]⟩, none, none⟩ = ⟨true, none⟩ ∧
    validateGenes ⟨some ⟨["E"], ["A"]⟩, none, none⟩ =
      ⟨false, some ["Extension gene must have exactly 2 alleles",
                    "Agouti gene must have exactly 2 alleles"]⟩ :=
  ⟨(validateGenes_shape_checks ⟨some ⟨["E", "e"], ["A", "a"]⟩, none, none⟩ _ rfl).1
      (by decide) (by decide),
   (validateGenes_shape_checks ⟨some ⟨["E"], ["A"]⟩, none, none⟩ _ rfl).2.2.2
      (by decide) (by decide)⟩

/-- Claim C8: `getAllCoatColors` and `getUsageStats` reject with the
fixed "not available" `UnikhornAPIError` for every transport, and their
outcome does not depend on the transport at all (no request is made). -/
theorem unsupported_endpoints_reject (t t' : Transport) :
    getAllCoatColors t =
      .error (.api ⟨"This endpoint is not available in the current API version",
        none, none⟩) ∧
    getUsageStats t =
      .error (.api ⟨"This endpoint is not available in the current API version",
        none, none⟩) ∧
    getAllCoatColors t = getAllCoatColors t' ∧
    getUsageStats t = getUsageStats t' :=
  ⟨rfl, rfl, rfl, rfl⟩

/-- Claim C9: construction with an absent or empty API key fails
synchronously with the configuration error (a plain Error with message
"API key is required", thrown before any client state exists); with a
non-empty key it succeeds, and each omitted setting takes its default:
the production base URL, a 30000 ms timeout and language "en". -/
theorem constructor_contract (config : UnikhornConfig) :
    ((config.apiKey = none ∨ config.apiKey = some "") →
      mkCalculator config = .error "API key is required") ∧
    (∀ key, config.apiKey = some key → key ≠ "" →
      ∃ st, mkCalculator config = .ok st ∧
        (config.baseURL = none → st.baseURL = "https://api.unikhorn.io/v1") ∧
        (config.timeout = none → st.timeout = 30000) ∧
        (config.language = none → st.language = "en")) := by
  constructor
  · rintro (h | h) <;> simp [mkCalculator, h]
  · intro key hk hne
    refine ⟨{ baseURL := jsOr config.baseURL "https://api.unikhorn.io/v1"
              timeout := jsOrNat config.timeout 30000
              language := jsOr config.language "en"
              authorizationHeader := "Bearer " ++ key
              apiKeyHeader := key }, ?_, ?_, ?_, ?_⟩
    · simp [mkCalculator, hk, hne]
    · intro h; simp [jsOr, h]
    · intro h; simp [jsOrNat, h]
    · intro h; simp [jsOr, h]

/-- Witness for C9: an empty configuration is rejected; a key-only
configuration yields a client with the default timeout. -/
theorem constructor_contract_witness :
    mkCalculator ⟨none, none, none, none⟩ = .error "API key is required" ∧
    ∃ st, mkCalculator ⟨some "k", none, none, none⟩ = .ok st ∧ st.timeout = 30000 := by
  refine ⟨(constructor_contract ⟨none, none, none, none⟩).1 (Or.inl rfl), ?_⟩
  obtain ⟨st, hok, -, ht, -⟩ :=
    (constructor_contract ⟨some "k", none, none, none⟩).2 "k" rfl (by decide)
  exact ⟨st, hok, ht rfl⟩

/-- Claim C5: for well-typed genes (base present, two alleles per pair)
the single-coat body is exactly the two extension entries, the two
agouti entries in order, the effective language, and an `others` field
holding the JSON-serialized mapping exactly when `others` is supplied —
when it is absent the body ends after `lang`, with no `others` entry at
all. The effective language is the per-call value when supplied, else
the client's configured language. -/
theorem singleCoat_body_fields (clientLang : String) (genes : HorseGenes)
    (e0 e1 a0 a1 : String) (hb : genes.base = some ⟨[e0, e1], [a0, a1]⟩) :
    (genes.others = none →
      buildSingleCoatBody clientLang genes =
        .ok [("base[extension][]", e0), ("base[extension][]", e1),
             ("base[agouti][]", a0), ("base[agouti][]", a1),
             ("lang", jsOr genes.lang clientLang)]) ∧
    (∀ o, genes.others = some o →
      buildSingleCoatBody clientLang genes =
        .ok [("base[extension][]", e0), ("base[extension][]", e1),
             ("base[agouti][]", a0), ("base[agouti][]", a1),
             ("lang", jsOr genes.lang clientLang),
             ("others", Json.stringify o)]) ∧
    (∀ l, genes.lang = some l → l ≠ "" → jsOr genes.lang clientLang = l) ∧
    (genes.lang = none → jsOr genes.lang clientLang = clientLang) := by
  refine ⟨?_, ?_, ?_, ?_⟩
  · intro h; simp [buildSingleCoatBody, hb, h, appendIndex]
  · intro o h; simp [buildSingleCoatBody, hb, h, appendIndex]
  · intro l h hne; simp [jsOr, h, hne]
  · intro h; simp [jsOr, h]

/-- Witness for C5: with `others` supplied the serialized field is the
last entry; without it the body stops at `lang`. -/
theorem singleCoat_body_fields_witness :
    buildSingleCoatBody "en"
        ⟨some ⟨["E", "e"], ["A", "a"]⟩, some (Json.obj [("grey", Json.str "Gg")]), none⟩ =
      .ok [("base[extension][]", "E"), ("base[extension][]", "e"),
           ("base[agouti][]", "A"), ("base[agouti][]", "a"),
           ("lang", "en"),
           ("others", Json.stringify (Json.obj [("grey", Json.str "Gg")]))] ∧
    buildSingleCoatBody "en" genesEe =
      .ok [("base[extension][]", "E"), ("base[extension][]", "e"),
           ("base[agouti][]", "A"), ("base[agouti][]", "a"), ("lang", "en")] := by
  constructor
  · have h := (singleCoat_body_fields "en"
        ⟨some ⟨["E", "e"], ["A", "a"]⟩, some (Json.obj [("grey", Json.str "Gg")]), none⟩
        "E" "e" "A" "a" rfl).2.1 _ rfl
    simpa [jsOr] using h
  · have h := (singleCoat_body_fields "en" genesEe "E" "e" "A" "a" rfl).1 rfl
    simpa [jsOr] using h

/-- Claim C6: the offspring body carries `mother` and `father` each as a
single JSON-encoded string field, carries `kit_linkage` as a JSON string
exactly when provided, and treats `has_IDK` as tri-state: no entry at
all when unset, the literal string "false" when false and "true" when
true. -/
theorem offspring_body_fields (clientLang : String) (off : OffspringGenes) :
    ((buildOffspringBody clientLang off).filter (fun p => p.1 = "mother") =
      [("mother", Json.stringify off.mother.toJson)]) ∧
    ((buildOffspringBody clientLang off).filter (fun p => p.1 = "father") =
      [("father", Json.stringify off.father.toJson)]) ∧
    ((buildOffspringBody clientLang off).filter (fun p => p.1 = "lang") =
      [("lang", jsOr off.lang clientLang)]) ∧
    (off.kit_linkage = none →
      (buildOffspringBody clientLang off).filter (fun p => p.1 = "kit_linkage") = []) ∧
    (∀ k, off.kit_linkage = some k →
      (buildOffspringBody clientLang off).filter (fun p => p.1 = "kit_linkage") =
        [("kit_linkage", Json.stringify k)]) ∧
    (off.has_IDK = none →
      (buildOffspringBody clientLang off).filter (fun p => p.1 = "has_IDK") = []) ∧
    (off.has_IDK = some false →
      (buildOffspringBody clientLang off).filter (fun p => p.1 = "has_IDK") =
        [("has_IDK", "false")]) ∧
    (off.has_IDK = some true →
      (buildOffspringBody clientLang off).filter (fun p => p.1 = "has_IDK") =
        [("has_IDK", "true")]) := by
  refine ⟨?_, ?_, ?_, ?_, ?_, ?_, ?_, ?_⟩
  · cases hk : off.kit_linkage <;> cases hi : off.has_IDK <;>
      simp [buildOffspringBody, hk, hi]
  · cases hk : off.kit_linkage <;> cases hi : off.has_IDK <;>
      simp [buildOffspringBody, hk, hi]
  · cases hk : off.kit_linkage <;> cases hi : off.has_IDK <;>
      simp [buildOffspringBody, hk, hi]
  · intro h; cases hi : off.has_IDK <;> simp [buildOffspringBody, h, hi]
  · intro k h; cases hi : off.has_IDK <;> simp [buildOffspringBody, h, hi]
  · intro h; cases hk : off.kit_linkage <;> simp [buildOffspringBody, h, hk]
  · intro h; cases hk : off.kit_linkage <;> simp [buildOffspringBody, h, hk]
  · intro h; cases hk : off.kit_linkage <;> simp [buildOffspringBody, h, hk]

/-- Witness for C6: with `has_IDK` unset the field is absent; with
`has_IDK: false` it carries the literal string "false". -/
theorem offspring_body_fields_witness :
    (buildOffspringBody "en" offEe).filter (fun p => p.1 = "has_IDK") = [] ∧
    (buildOffspringBody "en" ⟨genesEe, genesEe, none, some false, none⟩).filter
      (fun p => p.1 = "has_IDK") = [("has_IDK", "false")] :=
  ⟨(offspring_body_fields "en" offEe).2.2.2.2.2.1 rfl,
   (offspring_body_fields "en" ⟨genesEe, genesEe, none, some false, none⟩).2.2.2.2.2.2.1 rfl⟩

/-- Claim C1 (evaluation): against a transport failing every request with
HTTP 422 and body message "invalid allele", the error mapper alone
produces the error the claim describes — message "invalid allele",
status 422, the raw body — but each of the four network methods rejects
with the generic unexpected error instead: the response interceptor has
already run the mapper, and the method's catch runs it a second time on
the resulting `UnikhornAPIError`, which is not an axios error. -/
theorem serverError_double_mapping :
    handleError (.axios ⟨some (422, bodyInvalidAllele), true⟩) =
      ⟨"invalid allele", some 422, some bodyInvalidAllele⟩ ∧
    calculateSingleCoat t422 "en" genesEe =
      .error (.api ⟨"An unexpected error occurred", none, none⟩) ∧
    calculateOffspring t422 "en" offEe =
      .error (.api ⟨"An unexpected error occurred", none, none⟩) ∧
    batchCalculate t422 "en" [("a", genesEe)] =
      .error (.api ⟨"An unexpected error occurred", none, none⟩) ∧
    getApiInfo t422 =
      .error (.api ⟨"An unexpected error occurred", none, none⟩) :=
  ⟨rfl, rfl, rfl, rfl, rfl⟩

/-- Claim C2 (evaluation): against a transport where the request goes out
but no response arrives, the error mapper alone produces the claimed
error — "No response from server", status 0 — but each network method
again rejects with the generic unexpected error because of the same
double run of the mapper. -/
theorem noResponse_double_mapping :
    handleError (.axios ⟨none, true⟩) = ⟨"No response from server", some 0, none⟩ ∧
    calculateSingleCoat tTimeout "en" genesEe =
      .error (.api ⟨"An unexpected error occurred", none, none⟩) ∧
    calculateOffspring tTimeout "en" offEe =
      .error (.api ⟨"An unexpected error occurred", none, none⟩) ∧
    batchCalculate tTimeout "en" [("a", genesEe)] =
      .error (.api ⟨"An unexpected error occurred", none, none⟩) ∧
    getApiInfo tTimeout =
      .error (.api ⟨"An unexpected error occurred", none, none⟩) :=
  ⟨rfl, rfl, rfl, rfl, rfl⟩

/-- Every error the batch loop can produce went through `handleError` and
is therefore a `UnikhornAPIError`. -/
theorem batchRun_error_api (t : Transport) (clientLang : String) :
    ∀ (horses : List (String × HorseGenes)) (r : JsThrown) (invoked : List String),
      batchCalculateRun t clientLang horses = (.error r, invoked) →
      ∃ e, r = .api e := by
  intro horses
  induction horses with
  | nil => intro r invoked h; simp [batchCalculateRun] at h
  | cons p rest ih =>
    intro r invoked h
    obtain ⟨id, genes⟩ := p
    rw [batchCalculateRun] at h
    cases hs : calculateSingleCoat t clientLang genes with
    | ok v =>
      rw [hs] at h
      cases hr : batchCalculateRun t clientLang rest with
      | mk res inv =>
        rw [hr] at h
        cases res with
        | ok results => simp at h
        | error e =>
          simp at h
          obtain ⟨he, -⟩ := h
          exact he ▸ ih e inv hr
    | error thrown =>
      rw [hs] at h
      simp at h
      exact ⟨handleError thrown, h.1.symm⟩

/-- Claim C3: for every transport and every input, each network method
either succeeds or rejects with a `UnikhornAPIError`; no raw transport
error and no local exception reaches the caller. The mapper itself is
total and its output is always one of its three documented shapes. -/
theorem errors_are_api_errors (t : Transport) (clientLang : String)
    (genes : HorseGenes) (off : OffspringGenes)
    (horses : List (String × HorseGenes)) :
    (∀ r, calculateSingleCoat t clientLang genes = .error r → ∃ e, r = .api e) ∧
    (∀ r, calculateOffspring t clientLang off = .error r → ∃ e, r = .api e) ∧
    (∀ r, batchCalculate t clientLang horses = .error r → ∃ e, r = .api e) ∧
    (∀ r, getApiInfo t = .error r → ∃ e, r = .api e) ∧
    (∀ thrown,
      (∃ s d, handleError thrown = ⟨responseMessage d, some s, some d⟩) ∨
      handleError thrown = ⟨"No response from server", some 0, none⟩ ∨
      handleError thrown = ⟨"An unexpected error occurred", none, none⟩) := by
  refine ⟨?_, ?_, ?_, ?_, ?_⟩
  · intro r h
    rw [calculateSingleCoat] at h
    cases hb : buildSingleCoatBody clientLang genes with
    | error thrown => simp only [hb] at h; simp at h; exact ⟨handleError thrown, h.symm⟩
    | ok body =>
      simp only [hb] at h
      cases hc : clientRequest (t.post "/coats/result" body) with
      | ok d => simp only [hc] at h; simp at h
      | error thrown => simp only [hc] at h; simp at h; exact ⟨handleError thrown, h.symm⟩
  · intro r h
    rw [calculateOffspring] at h
    cases hc : clientRequest (t.post "/coats/generateChild" (buildOffspringBody clientLang off)) with
    | ok d => simp only [hc] at h; simp at h
    | error thrown => simp only [hc] at h; simp at h; exact ⟨handleError thrown, h.symm⟩
  · intro r h
    rw [batchCalculate] at h
    cases hr : batchCalculateRun t clientLang horses with
    | mk res inv =>
      simp only [hr] at h
      cases res with
      | ok results => simp at h
      | error e =>
        simp at h
        exact batchRun_error_api t clientLang horses r inv (by rw [hr, h])
  · intro r h
    rw [getApiInfo] at h
    cases hc : clientRequest (t.get "/coats/api-info") with
    | ok d => simp only [hc] at h; simp at h
    | error thrown => simp only [hc] at h; simp at h; exact ⟨handleError thrown, h.symm⟩
  · intro thrown
    cases thrown with
    | axios e =>
      rcases e with ⟨resp, sent⟩
      cases resp with
      | some sd => exact Or.inl ⟨sd.1, sd.2, rfl⟩
      | none => cases sent with
        | true => exact Or.inr (Or.inl rfl)
        | false => exact Or.inr (Or.inr rfl)
    | api e => exact Or.inr (Or.inr rfl)
    | exc msg => exact Or.inr (Or.inr rfl)

/-- Witness for C3: on the failing 422 transport the single-coat call's
rejection is an api error. -/
theorem errors_are_api_errors_witness :
    ∃ e, JsThrown.api ⟨"An unexpected error occurred", none, none⟩ = JsThrown.api e :=
  (errors_are_api_errors t422 "en" genesEe offEe []).1
    (.api ⟨"An unexpected error occurred", none, none⟩) rfl

/-- When every item's single-coat call succeeds, the batch loop visits
the items in input order, invokes the call once per item, and pairs each
input id with its result in the same order. -/
theorem batchRun_all_ok (t : Transport) (clientLang : String) :
    ∀ (horses : List (String × HorseGenes)) (val : HorseGenes → Json),
      (∀ p ∈ horses, calculateSingleCoat t clientLang p.2 = .ok (val p.2)) →
      batchCalculateRun t clientLang horses =
        (.ok (horses.map (fun p => (p.1, val p.2))), horses.map Prod.fst) := by
  intro horses
  induction horses with
  | nil => intro val h; rfl
  | cons p rest ih =>
    intro val h
    obtain ⟨id, genes⟩ := p
    have hs : calculateSingleCoat t clientLang genes = .ok (val genes) :=
      h (id, genes) (List.mem_cons_self _ _)
    have hr := ih val (fun q hq => h q (List.mem_cons_of_mem _ hq))
    rw [batchCalculateRun]
    simp [hs, hr]

/-- When every item before some item succeeds and that item's call
fails, the loop stops there: the thrown value is the caught error passed
once more through `handleError`, the items after the failing one are
never invoked, and the results of the earlier items are discarded. -/
theorem batchRun_failfast (t : Transport) (clientLang : String) :
    ∀ (pre : List (String × HorseGenes)) (id : String) (genes : HorseGenes)
      (post : List (String × HorseGenes)) (e : JsThrown),
      (∀ p ∈ pre, ∃ v, calculateSingleCoat t clientLang p.2 = .ok v) →
      calculateSingleCoat t clientLang genes = .error e →
      batchCalculateRun t clientLang (pre ++ (id, genes) :: post) =
        (.error (.api (handleError e)), pre.map Prod.fst ++ [id]) := by
  intro pre
  induction pre with
  | nil =>
    intro id genes post e _ hfail
    rw [List.nil_append, batchCalculateRun]
    simp only [hfail]
    rfl
  | cons p rest ih =>
    intro id genes post e hpre hfail
    obtain ⟨pid, pgenes⟩ := p
    obtain ⟨v, hv⟩ := hpre (pid, pgenes) (List.mem_cons_self _ _)
    have hr := ih id genes post e (fun q hq => hpre q (List.mem_cons_of_mem _ hq)) hfail
    rw [List.cons_append, batchCalculateRun]
    simp only [hv, hr]
    rfl

/-- Claim C4: `batchCalculate` runs the single-coat call item by item in
input order; if every call succeeds the result pairs each input id with
its result in the same order; if some call fails (all earlier ones
having succeeded) the whole batch rejects with the mapped error, the
later items are never invoked, and nothing computed for the earlier
items reaches the caller. -/
theorem batch_order_and_failfast (t : Transport) (clientLang : String) :
    (∀ (horses : List (String × HorseGenes)) (val : HorseGenes → Json),
      (∀ p ∈ horses, calculateSingleCoat t clientLang p.2 = .ok (val p.2)) →
      batchCalculate t clientLang horses =
        .ok (horses.map (fun p => (p.1, val p.2))) ∧
      (batchCalculateRun t clientLang horses).2 = horses.map Prod.fst) ∧
    (∀ (pre : List (String × HorseGenes)) (id : String) (genes : HorseGenes)
        (post : List (String × HorseGenes)) (e : JsThrown),
      (∀ p ∈ pre, ∃ v, calculateSingleCoat t clientLang p.2 = .ok v) →
      calculateSingleCoat t clientLang genes = .error e →
      batchCalculate t clientLang (pre ++ (id, genes) :: post) =
        .error (.api (handleError e)) ∧
      (batchCalculateRun t clientLang (pre ++ (id, genes) :: post)).2 =
        pre.map Prod.fst ++ [id]) := by
  constructor
  · intro horses val h
    rw [batchCalculate, batchRun_all_ok t clientLang horses val h]
    exact ⟨rfl, rfl⟩
  · intro pre id genes post e hpre hfail
    rw [batchCalculate, batchRun_failfast t clientLang pre id genes post e hpre hfail]
    exact ⟨rfl, rfl⟩

/-- Witness for C4: on the fixture transport, a three-item batch whose
second item fails rejects with the (re-)mapped error having invoked only
the first two items, and the first item's result is not returned; a
one-item batch succeeds with the paired result. -/
theorem batch_order_and_failfast_witness :
    batchCalculate tBatch "en" [("a", genesEe), ("b", genesXx), ("c", genesEe)] =
      .error (.api ⟨"An unexpected error occurred", none, none⟩) ∧
    (batchCalculateRun tBatch "en" [("a", genesEe), ("b", genesXx), ("c", genesEe)]).2 =
      ["a", "b"] ∧
    batchCalculate tBatch "en" [("a", genesEe)] = .ok [("a", Json.str "ok")] := by
  have hpre : ∀ p ∈ [("a", genesEe)],
      ∃ v, calculateSingleCoat tBatch "en" p.2 = .ok v := by
    intro p hp
    rw [List.mem_singleton] at hp
    subst hp
    exact ⟨Json.str "ok", rfl⟩
  have h2 := (batch_order_and_failfast tBatch "en").2 [("a", genesEe)] "b" genesXx
    [("c", genesEe)] (.api ⟨"An unexpected error occurred", none, none⟩) hpre rfl
  have h1 := (batch_order_and_failfast tBatch "en").1 [("a", genesEe)]
    (fun _ => Json.str "ok")
    (by intro p hp; rw [List.mem_singleton] at hp; subst hp; rfl)
  refine ⟨?_, ?_, ?_⟩
  · have := h2.1
    simpa [handleError] using this
  · have := h2.2
    simpa using this
  · have := h1.1
    simpa using this

end Unikhorn
